import Mathlib

/-!
Shallow embedding of `src/worker.js` (Telegram search-bot Cloudflare worker).

The worker is a stateless request handler.  Its effects are outbound HTTP
calls (the search API `fetch`, the Telegram `sendMessage` `fetch`, and the
Telegram `setWebhook` `fetch`).  We model:

* JavaScript exceptions / rejected promises as `JsResult.thrown`;
* each outbound call as an entry appended to a trace (`List OutCall`) — a
  call is recorded even when its delivery rejects, since the request was
  issued;
* the outcomes of the outbound calls by an `Oracle`: the search fetch and
  the webhook fetch each occur at most once per invocation and get a single
  outcome; the `sendMessage` fetches are numbered in invocation order and
  `sendOk n` tells whether the `n`-th one resolves;
* JavaScript truthiness where the source relies on it: a missing or empty
  string is falsy (`jsTruthyStr`), the number `0` is falsy
  (`jsOmitIfFalsyInt`), a JSON `null` is falsy while `[]` (an object) is
  truthy;
* `String.prototype.trim` with the ECMAScript white-space set (`jsTrim`),
  and `encodeURIComponent` by percent-encoding UTF-8 bytes of every
  character outside the unreserved set.

Field names follow the source.  `Payload.reply_markup` keeps the structured
inline-keyboard value; the source serialises exactly this object with
`JSON.stringify`, which is injective on it, so nothing is lost.
-/

namespace Worker

/-- Result of a JavaScript async computation: a value, or a thrown
exception / rejected promise (the exception value itself is never
inspected by the worker, so it is not carried). -/
inductive JsResult (α : Type) where
  | ok (value : α)
  | thrown
  deriving Repr, DecidableEq

/-- `message.chat` as read by the worker. -/
structure Chat where
  id : Int
  type : String
  deriving Repr, DecidableEq

/-- `update.message` as read by the worker.  `text := none` models an
absent `text` field. -/
structure Message where
  message_id : Int
  chat : Chat
  text : Option String
  deriving Repr, DecidableEq

/-- A parsed Telegram update; only `message` is ever read. -/
structure Update where
  message : Option Message
  deriving Repr, DecidableEq

/-- The shape of the search API JSON the worker reads: `total_files` and
`files`.  `files := none` models an absent (or null) `files` field. -/
structure SearchData where
  total_files : Int
  files : Option (List String)
  deriving Repr, DecidableEq

/-- The JSON the Telegram `setWebhook` endpoint answers with, as read by
the worker: the `ok` flag, plus the rest of the document opaquely (it is
only ever re-serialised into the response body). -/
structure WebhookResult where
  ok : Bool
  raw : String
  deriving Repr, DecidableEq

/-- Outcome of `response.json()`: the parsed value, or a rejection. -/
inductive JsonOutcome (α : Type) where
  | reject
  | value (a : α)
  deriving Repr, DecidableEq

/-- Outcome of an outbound `fetch`: a rejected promise, or a response with
an HTTP status whose body parses (or fails to parse) as JSON. -/
inductive FetchOutcome (α : Type) where
  | reject
  | response (status : Int) (body : JsonOutcome α)
  deriving Repr, DecidableEq

/-- The JSON body of a `sendMessage` call as the worker builds it.
`reply_markup` and `reply_to_message_id` are `none` when the source omits
the field. -/
structure InlineButton where
  text : String
  url : String
  deriving Repr, DecidableEq

/-- The inline keyboard object attached to a result reply. -/
structure ReplyMarkup where
  inline_keyboard : List (List InlineButton)
  deriving Repr, DecidableEq

/-- The `sendMessage` payload. -/
structure Payload where
  chat_id : Int
  text : String
  parse_mode : String
  reply_markup : Option ReplyMarkup
  reply_to_message_id : Option Int
  deriving Repr, DecidableEq

/-- One outbound HTTP call made by the worker. -/
inductive OutCall where
  | search (url : String)
  | send (url : String) (payload : Payload)
  | webhook (url : String)
  deriving Repr, DecidableEq

/-- Environment of outcomes for the outbound calls of one invocation. -/
structure Oracle where
  searchOutcome : FetchOutcome (Option SearchData)
  webhookOutcome : FetchOutcome (Option WebhookResult)
  sendOk : Nat → Bool

/-- Worker environment bindings; `none` models an unset secret. -/
structure Env where
  BOT_TOKEN : Option String
  WORKER_URL : Option String
  deriving Repr, DecidableEq

/-- An inbound HTTP request.  `jsonBody := none` models a body on which
`request.json()` rejects; otherwise the parsed update. -/
structure Request where
  method : String
  path : String
  jsonBody : Option Update
  deriving Repr, DecidableEq

/-- A `Response` as constructed by the worker: status and body text. -/
structure WResponse where
  status : Int
  body : String
  deriving Repr, DecidableEq

/-- JS truthiness of a possibly-absent string: `undefined`, `null` and
the empty string are falsy. -/
def jsTruthyStr : Option String → Bool
  | none => false
  | some s => s ≠ ""

/-- JS truthiness filter on a possibly-absent number: `if (x)` keeps the
value only when it is present and non-zero (`0` is falsy). -/
def jsOmitIfFalsyInt : Option Int → Option Int
  | none => none
  | some n => if n = 0 then none else some n

/-- The ECMAScript white-space set used by `String.prototype.trim`
(WhiteSpace together with LineTerminator). -/
def isJsWhitespace (c : Char) : Bool :=
  c.toNat = 9 || c.toNat = 10 || c.toNat = 11 || c.toNat = 12 ||
  c.toNat = 13 || c.toNat = 32 || c.toNat = 160 || c.toNat = 5760 ||
  (8192 ≤ c.toNat && c.toNat ≤ 8202) || c.toNat = 8232 ||
  c.toNat = 8233 || c.toNat = 8239 || c.toNat = 8287 ||
  c.toNat = 12288 || c.toNat = 65279

/-- `String.prototype.trim`: drop leading and trailing JS white space. -/
def jsTrim (s : String) : String :=
  String.mk (((s.toList.dropWhile isJsWhitespace).reverse.dropWhile
    isJsWhitespace).reverse)

/-- Characters `encodeURIComponent` leaves unescaped:
`A-Z a-z 0-9 - _ . ! ~ * ' ( )`. -/
def isUnreservedUriChar (c : Char) : Bool :=
  (65 ≤ c.toNat && c.toNat ≤ 90) || (97 ≤ c.toNat && c.toNat ≤ 122) ||
  (48 ≤ c.toNat && c.toNat ≤ 57) ||
  c.toNat = 45 || c.toNat = 95 || c.toNat = 46 || c.toNat = 33 ||
  c.toNat = 126 || c.toNat = 42 || c.toNat = 39 || c.toNat = 40 ||
  c.toNat = 41

/-- Upper-case hexadecimal digit, as `encodeURIComponent` produces. -/
def hexDigit (n : Nat) : Char :=
  if n < 10 then Char.ofNat (48 + n) else Char.ofNat (55 + n)

/-- UTF-8 byte sequence of a code point. -/
def utf8Bytes (n : Nat) : List Nat :=
  if n < 128 then [n]
  else if n < 2048 then [192 + n / 64, 128 + n % 64]
  else if n < 65536 then
    [224 + n / 4096, 128 + (n / 64) % 64, 128 + n % 64]
  else
    [240 + n / 262144, 128 + (n / 4096) % 64, 128 + (n / 64) % 64,
     128 + n % 64]

/-- Percent-encoding of one byte. -/
def percentByte (b : Nat) : List Char :=
  [Char.ofNat 37, hexDigit (b / 16), hexDigit (b % 16)]

/-- `encodeURIComponent`: keep unreserved characters, percent-encode the
UTF-8 bytes of every other character. -/
def encodeURIComponent (s : String) : String :=
  String.mk (List.flatten (s.toList.map fun c =>
    if isUnreservedUriChar c then [c]
    else List.flatten ((utf8Bytes c.toNat).map percentByte)))

/-- Character-list core of `String.prototype.startsWith`. -/
def charsStartWith : List Char → List Char → Bool
  | _, [] => true
  | [], _ :: _ => false
  | c :: cs, p :: ps => c = p && charsStartWith cs ps

/-- `s.startsWith(p)` of ECMAScript, via the character lists (kept
structurally recursive so that concrete instances evaluate). -/
def jsStartsWith (s p : String) : Bool :=
  charsStartWith s.toList p.toList

/-- `new Response('OK')`: the plain acknowledgment. -/
def okResponse : WResponse := ⟨200, "OK"⟩

/-- The Telegram `sendMessage` endpoint for a bot token. -/
def sendApiUrl (token : String) : String :=
  "https://api.telegram.org/bot" ++ token ++ "/sendMessage"

/-- The search API URL built from the (trimmed) query. -/
def searchUrl (query : String) : String :=
  "https://tga-hd.api.hashhackers.com/files/search?q=" ++
    encodeURIComponent query

/-- The external results-page URL placed on the inline button. -/
def buttonUrl (query : String) : String :=
  "https://gods-eye.pages.dev/?q=" ++ encodeURIComponent query ++
    "&t=files"

/-- Number of `sendMessage` calls in a trace; the oracle numbers the send
outcomes in invocation order. -/
def countSends : List OutCall → Nat
  | [] => 0
  | OutCall.send _ _ :: rest => countSends rest + 1
  | _ :: rest => countSends rest

/-- `sendMessage(token, chatId, text, replyMarkup = null,
replyToMessageId = null)`.  The payload always carries
`parse_mode: 'HTML'`; `reply_markup` is attached only when the argument is
truthy (an object, hence whenever present), `reply_to_message_id` only
when truthy (present and non-zero).  The outbound `fetch` is awaited with
no handler, so a rejection propagates to the caller; the call itself is
recorded either way.  `idx` is the invocation-order number of this send. -/
def sendMessage (o : Oracle) (idx : Nat) (token : String) (chatId : Int)
    (text : String) (replyMarkup : Option ReplyMarkup)
    (replyToMessageId : Option Int) : JsResult Unit × List OutCall :=
  let payload : Payload :=
    { chat_id := chatId
      text := text
      parse_mode := "HTML"
      reply_markup := replyMarkup
      reply_to_message_id := jsOmitIfFalsyInt replyToMessageId }
  ((if o.sendOk idx then JsResult.ok () else JsResult.thrown),
   [OutCall.send (sendApiUrl token) payload])

/-- The body of the `try` block in `handleUpdate`: search, then reply with
results, or with the no-results notice.  `JsResult.thrown` is any
exception escaping the block (search fetch rejected, non-ok search status,
search JSON rejected, or a rejected reply send). -/
def searchAndReply (o : Oracle) (botToken : String) (chatId : Int)
    (messageId : Int) (query : String) : JsResult Unit × List OutCall :=
  let t0 : List OutCall := [OutCall.search (searchUrl query)]
  match o.searchOutcome with
  | FetchOutcome.reject => (JsResult.thrown, t0)
  | FetchOutcome.response status body =>
    if 200 ≤ status ∧ status ≤ 299 then
      match body with
      | JsonOutcome.reject => (JsResult.thrown, t0)
      | JsonOutcome.value searchData =>
        match searchData with
        | some data =>
          match data.files with
          | some files =>
            if 0 < files.length then
              let responseText :=
                "Found " ++ toString data.total_files ++
                  " result(s) for \"" ++ query ++ "\"."
              let markup : ReplyMarkup :=
                { inline_keyboard :=
                    [[{ text := "🔗 Get Results", url := buttonUrl query }]] }
              let s := sendMessage o (countSends t0) botToken chatId
                responseText (some markup) (some messageId)
              (s.1, t0 ++ s.2)
            else
              let s := sendMessage o (countSends t0) botToken chatId
                ("No results found for \"" ++ query ++
                  "\". Please try a different search term.")
                none (some messageId)
              (s.1, t0 ++ s.2)
          | none =>
            let s := sendMessage o (countSends t0) botToken chatId
              ("No results found for \"" ++ query ++
                "\". Please try a different search term.")
              none (some messageId)
            (s.1, t0 ++ s.2)
        | none =>
          let s := sendMessage o (countSends t0) botToken chatId
            ("No results found for \"" ++ query ++
              "\". Please try a different search term.")
            none (some messageId)
          (s.1, t0 ++ s.2)
    else (JsResult.thrown, t0)

/-- `handleUpdate(update, botToken)`.  Filters (missing text, chat scope,
command or empty query), then the guarded search-and-reply; an exception
from the guarded block triggers the apology send, whose own rejection
escapes `handleUpdate`. -/
def handleUpdate (o : Oracle) (update : Update) (botToken : String) :
    JsResult WResponse × List OutCall :=
  match update.message with
  | none => (JsResult.ok okResponse, [])
  | some message =>
    if jsTruthyStr message.text = false then (JsResult.ok okResponse, [])
    else
      let chatId := message.chat.id
      let chatType := message.chat.type
      let query := jsTrim (message.text.getD "")
      if chatType ≠ "group" ∧ chatType ≠ "supergroup" then
        if chatType = "private" then
          let s := sendMessage o 0 botToken chatId
            "I only work in group chats." none none
          match s.1 with
          | JsResult.ok _ => (JsResult.ok okResponse, s.2)
          | JsResult.thrown => (JsResult.thrown, s.2)
        else (JsResult.ok okResponse, [])
      else if jsStartsWith query ("/") ∨ query = "" then
        (JsResult.ok okResponse, [])
      else
        let s := searchAndReply o botToken chatId message.message_id query
        match s.1 with
        | JsResult.ok _ => (JsResult.ok okResponse, s.2)
        | JsResult.thrown =>
          let a := sendMessage o (countSends s.2) botToken chatId
            "Sorry, something went wrong while searching." none none
          match a.1 with
          | JsResult.ok _ => (JsResult.ok okResponse, s.2 ++ a.2)
          | JsResult.thrown => (JsResult.thrown, s.2 ++ a.2)

/-- `setWebhook(requestUrl, botToken, env)`.  The `requestUrl` argument is
unused in the source.  A missing (or empty, hence falsy) `WORKER_URL`
short-circuits with a 500 before any outbound call; otherwise the
registration `fetch` is issued and the response JSON decides success.
`result.ok` on a `null` result throws; any exception escapes (there is no
handler around this path). -/
def setWebhook (o : Oracle) (botToken : String) (env : Env) :
    JsResult WResponse × List OutCall :=
  if jsTruthyStr env.WORKER_URL = false then
    (JsResult.ok ⟨500, "WORKER_URL secret is not set"⟩, [])
  else
    let workerUrl := env.WORKER_URL.getD ""
    let webhookUrl := workerUrl
    let apiUrl :=
      "https://api.telegram.org/bot" ++ botToken ++ "/setWebhook?url=" ++
        encodeURIComponent webhookUrl ++ "&drop_pending_updates=true"
    let t0 : List OutCall := [OutCall.webhook apiUrl]
    match o.webhookOutcome with
    | FetchOutcome.reject => (JsResult.thrown, t0)
    | FetchOutcome.response _ body =>
      match body with
      | JsonOutcome.reject => (JsResult.thrown, t0)
      | JsonOutcome.value none => (JsResult.thrown, t0)
      | JsonOutcome.value (some result) =>
        if result.ok then
          (JsResult.ok ⟨200, "Webhook set successfully to " ++ webhookUrl ++
            "\n<pre>" ++ result.raw ++ "</pre>"⟩, t0)
        else
          (JsResult.ok ⟨500, "Failed to set webhook.\n<pre>" ++ result.raw ++
            "</pre>"⟩, t0)

/-- The worker's `fetch(request, env)` entry point.  A falsy `BOT_TOKEN`
fails first; the `/setwebhook` route is dispatched next; then any POST has
its body parsed and handled, with both a parse failure and an exception
escaping `handleUpdate` caught by the same handler answering 400; every
other request gets the static greeting. -/
def fetch (o : Oracle) (request : Request) (env : Env) :
    JsResult WResponse × List OutCall :=
  if jsTruthyStr env.BOT_TOKEN = false then
    (JsResult.ok ⟨500, "BOT_TOKEN secret is not set"⟩, [])
  else
    let botToken := env.BOT_TOKEN.getD ""
    if request.path = "/setwebhook" then
      setWebhook o botToken env
    else if request.method = "POST" then
      match request.jsonBody with
      | none => (JsResult.ok ⟨400, "Invalid request body"⟩, [])
      | some update =>
        let h := handleUpdate o update botToken
        match h.1 with
        | JsResult.ok r => (JsResult.ok r, h.2)
        | JsResult.thrown => (JsResult.ok ⟨400, "Invalid request body"⟩, h.2)
    else
      (JsResult.ok ⟨200,
        "Hello! This is the Telegram bot worker. Use the /setwebhook endpoint to configure the bot."⟩,
       [])

/-! ### Concrete scenarios used by witnesses and counterexamples -/

/-- A group-chat update carrying a text message. -/
def mkUpdate (mid cid : Int) (ctype t : String) : Update :=
  { message := some
      { message_id := mid, chat := { id := cid, type := ctype },
        text := some t } }

/-- Oracle: search succeeds with three files, every delivery resolves. -/
def oFound3 : Oracle :=
  { searchOutcome := FetchOutcome.response 200
      (JsonOutcome.value (some { total_files := 3, files := some ["a", "b", "c"] }))
    webhookOutcome := FetchOutcome.reject
    sendOk := fun _ => true }

/-- Oracle: the search fetch rejects and every delivery rejects. -/
def oAllFail : Oracle :=
  { searchOutcome := FetchOutcome.reject
    webhookOutcome := FetchOutcome.reject
    sendOk := fun _ => false }

/-! ### Claims -/

/-- C2, counterexample: the claim says a failed delivery is not propagated
to the caller of the send helper — but when the underlying `fetch` rejects,
`sendMessage` itself rejects (`JsResult.thrown`), not a normal return. -/
theorem C2_counterexample :
    (sendMessage oAllFail 0 ("TOKEN") 5 ("hello") none none).1 =
      JsResult.thrown := by
  rfl

/-- C2, amended: a failure of the underlying delivery call IS propagated to
the caller of `sendMessage` (the helper has no internal handler), while the
outbound call itself is still issued. -/
theorem C2_amended_send_propagates (o : Oracle) (idx : Nat)
    (token : String) (chatId : Int) (text : String)
    (rm : Option ReplyMarkup) (rid : Option Int)
    (h : o.sendOk idx = false) :
    (sendMessage o idx token chatId text rm rid).1 = JsResult.thrown ∧
    (sendMessage o idx token chatId text rm rid).2 =
      [OutCall.send (sendApiUrl token)
        { chat_id := chatId, text := text, parse_mode := "HTML",
          reply_markup := rm,
          reply_to_message_id := jsOmitIfFalsyInt rid }] := by
  simp [sendMessage, h]

/-- C2, witness for the amended theorem at a concrete failing delivery. -/
theorem C2_amended_send_propagates_witness :
    (sendMessage oAllFail 1 ("TOKEN") 5 ("hello") none none).1 =
      JsResult.thrown ∧
    (sendMessage oAllFail 1 ("TOKEN") 5 ("hello") none none).2 =
      [OutCall.send (sendApiUrl ("TOKEN"))
        { chat_id := 5, text := "hello", parse_mode := "HTML",
          reply_markup := none,
          reply_to_message_id := jsOmitIfFalsyInt none }] :=
  C2_amended_send_propagates oAllFail 1 ("TOKEN") 5 ("hello") none none rfl

/-- C3: with `BOT_TOKEN` absent, every request on every route is answered
with HTTP 500 and body equal to (hence containing) the diagnostic, and the
trace of outbound calls is empty. -/
theorem C3_missing_token_500 (o : Oracle) (req : Request) (env : Env)
    (h : env.BOT_TOKEN = none) :
    Worker.fetch o req env =
      (JsResult.ok ⟨500, "BOT_TOKEN secret is not set"⟩, []) := by
  simp [Worker.fetch, h, jsTruthyStr]

/-- C3, witness: a concrete POST request against an empty environment. -/
theorem C3_missing_token_500_witness :
    Worker.fetch oFound3
      { method := "POST", path := "/", jsonBody := some (mkUpdate 10 5 ("group") ("report")) }
      { BOT_TOKEN := none, WORKER_URL := none } =
      (JsResult.ok ⟨500, "BOT_TOKEN secret is not set"⟩, []) :=
  C3_missing_token_500 oFound3
    { method := "POST", path := "/", jsonBody := some (mkUpdate 10 5 ("group") ("report")) }
    { BOT_TOKEN := none, WORKER_URL := none } rfl

/-- C4: a POST on a non-setup path whose body fails to parse as JSON is
answered HTTP 400 with body equal to the diagnostic, with no outbound
call. -/
theorem C4_bad_body_400 (o : Oracle) (req : Request) (env : Env)
    (htok : jsTruthyStr env.BOT_TOKEN = true)
    (hpath : req.path ≠ "/setwebhook")
    (hmethod : req.method = "POST")
    (hbody : req.jsonBody = none) :
    Worker.fetch o req env =
      (JsResult.ok ⟨400, "Invalid request body"⟩, []) := by
  simp [Worker.fetch, htok, hpath, hmethod, hbody]

/-- C4, witness: a concrete unparsable POST body. -/
theorem C4_bad_body_400_witness :
    Worker.fetch oFound3
      { method := "POST", path := "/", jsonBody := none }
      { BOT_TOKEN := some ("TOKEN"), WORKER_URL := none } =
      (JsResult.ok ⟨400, "Invalid request body"⟩, []) :=
  C4_bad_body_400 oFound3
    { method := "POST", path := "/", jsonBody := none }
    { BOT_TOKEN := some ("TOKEN"), WORKER_URL := none }
    (by decide) (by decide) rfl rfl

/-- C9: on the webhook-setup route with the bot credential present but
`WORKER_URL` absent, the handler answers HTTP 500 with the diagnostic and
makes no outbound call. -/
theorem C9_missing_worker_url_500 (o : Oracle) (req : Request) (env : Env)
    (htok : jsTruthyStr env.BOT_TOKEN = true)
    (hpath : req.path = "/setwebhook")
    (hw : env.WORKER_URL = none) :
    Worker.fetch o req env =
      (JsResult.ok ⟨500, "WORKER_URL secret is not set"⟩, []) := by
  simp [Worker.fetch, setWebhook, htok, hpath, hw,
    show jsTruthyStr none = false from rfl]

/-- C9, witness: a concrete setup request with only the token set. -/
theorem C9_missing_worker_url_500_witness :
    Worker.fetch oFound3
      { method := "GET", path := "/setwebhook", jsonBody := none }
      { BOT_TOKEN := some ("TOKEN"), WORKER_URL := none } =
      (JsResult.ok ⟨500, "WORKER_URL secret is not set"⟩, []) :=
  C9_missing_worker_url_500 oFound3
    { method := "GET", path := "/setwebhook", jsonBody := none }
    { BOT_TOKEN := some ("TOKEN"), WORKER_URL := none }
    (by decide) rfl rfl

/-- C7: for updates with a (truthy) text message, a private chat gets
exactly one send — the fixed notice, with no search call — while a chat
type outside group, supergroup and private produces no outbound call at
all and the OK acknowledgment. -/
theorem C7_chat_scope (o : Oracle) (u : Update) (m : Message)
    (t tok : String)
    (hm : u.message = some m) (ht : m.text = some t) (htne : t ≠ "") :
    (m.chat.type = "private" →
      (handleUpdate o u tok).2 =
        [OutCall.send (sendApiUrl tok)
          { chat_id := m.chat.id, text := "I only work in group chats.",
            parse_mode := "HTML", reply_markup := none,
            reply_to_message_id := none }]) ∧
    (m.chat.type ≠ "group" → m.chat.type ≠ "supergroup" →
      m.chat.type ≠ "private" →
      handleUpdate o u tok = (JsResult.ok okResponse, [])) := by
  constructor
  · intro hp
    cases hOk : o.sendOk 0 <;>
      simp [handleUpdate, hm, ht, htne, hp, sendMessage, hOk,
        jsTruthyStr, jsOmitIfFalsyInt]
  · intro h1 h2 h3
    simp [handleUpdate, hm, ht, htne, h1, h2, h3, jsTruthyStr]

/-- C7, witness: a private-chat update produces exactly the notice send. -/
theorem C7_chat_scope_witness :
    (handleUpdate oFound3 (mkUpdate 10 5 ("private") ("hi")) ("TOKEN")).2 =
      [OutCall.send (sendApiUrl ("TOKEN"))
        { chat_id := 5, text := "I only work in group chats.",
          parse_mode := "HTML", reply_markup := none,
          reply_to_message_id := none }] :=
  (C7_chat_scope oFound3 (mkUpdate 10 5 ("private") ("hi"))
    { message_id := 10, chat := { id := 5, type := "private" },
      text := some ("hi") }
    ("hi") ("TOKEN") rfl rfl (by decide)).1 rfl

/-- C8: in a group or supergroup, a message whose trimmed text starts with
a slash or is empty is acknowledged with no outbound call (an untrimmed
empty text is already dropped by the missing-content filter). -/
theorem C8_command_or_empty (o : Oracle) (u : Update) (m : Message)
    (t tok : String)
    (hm : u.message = some m) (ht : m.text = some t)
    (hg : m.chat.type = "group" ∨ m.chat.type = "supergroup")
    (hq : jsStartsWith (jsTrim t) ("/") = true ∨ jsTrim t = "") :
    handleUpdate o u tok = (JsResult.ok okResponse, []) := by
  by_cases htE : t = ""
  · simp [handleUpdate, hm, ht, htE, jsTruthyStr]
  · rcases hg with hg | hg <;> rcases hq with hq | hq <;>
      simp [handleUpdate, hm, ht, htE, hg, hq, jsTruthyStr]

/-- C8, witness: a `/start` command in a group chat. -/
theorem C8_command_or_empty_witness :
    handleUpdate oFound3 (mkUpdate 10 5 ("group") ("/start")) ("TOKEN") =
      (JsResult.ok okResponse, []) :=
  C8_command_or_empty oFound3 (mkUpdate 10 5 ("group") ("/start"))
    { message_id := 10, chat := { id := 5, type := "group" },
      text := some ("/start") }
    ("/start") ("TOKEN") rfl rfl (Or.inl rfl) (Or.inl (by decide))

/-- Oracle: the search fetch rejects, deliveries resolve. -/
def oSearchReject : Oracle :=
  { searchOutcome := FetchOutcome.reject
    webhookOutcome := FetchOutcome.reject
    sendOk := fun _ => true }

/-- C6: when the search fetch rejects or answers a non-2xx status, the
trace holds the search attempt and then exactly one send — the apology,
not threaded — and no other reply. -/
theorem C6_search_failure_apology (o : Oracle) (u : Update) (m : Message)
    (t tok : String)
    (hm : u.message = some m) (ht : m.text = some t) (htne : t ≠ "")
    (hg : m.chat.type = "group" ∨ m.chat.type = "supergroup")
    (hq1 : jsStartsWith (jsTrim t) ("/") = false) (hq2 : jsTrim t ≠ "")
    (hfail : o.searchOutcome = FetchOutcome.reject ∨
      ∃ st b, o.searchOutcome = FetchOutcome.response st b ∧
        ¬(200 ≤ st ∧ st ≤ 299)) :
    (handleUpdate o u tok).2 =
      [OutCall.search (searchUrl (jsTrim t)),
       OutCall.send (sendApiUrl tok)
         { chat_id := m.chat.id,
           text := "Sorry, something went wrong while searching.",
           parse_mode := "HTML", reply_markup := none,
           reply_to_message_id := none }] := by
  rcases hfail with hE | ⟨st, b, hE, hst⟩
  · rcases hg with hg | hg <;> cases hOk : o.sendOk 0 <;>
      simp [handleUpdate, searchAndReply, hm, ht, htne, hg, hq1, hq2,
        hE, countSends, sendMessage, hOk, jsTruthyStr, jsOmitIfFalsyInt]
  · rcases hg with hg | hg <;> cases hOk : o.sendOk 0 <;>
      simp [handleUpdate, searchAndReply, hm, ht, htne, hg, hq1, hq2,
        hE, hst, countSends, sendMessage, hOk, jsTruthyStr,
        jsOmitIfFalsyInt]

/-- C6, witness: rejected search fetch in a group chat. -/
theorem C6_search_failure_apology_witness :
    (handleUpdate oSearchReject (mkUpdate 10 5 ("group") ("report"))
      ("TOKEN")).2 =
      [OutCall.search (searchUrl (jsTrim ("report"))),
       OutCall.send (sendApiUrl ("TOKEN"))
         { chat_id := 5,
           text := "Sorry, something went wrong while searching.",
           parse_mode := "HTML", reply_markup := none,
           reply_to_message_id := none }] :=
  C6_search_failure_apology oSearchReject
    (mkUpdate 10 5 ("group") ("report"))
    { message_id := 10, chat := { id := 5, type := "group" },
      text := some ("report") }
    ("report") ("TOKEN") rfl rfl (by decide) (Or.inl rfl)
    (by decide) (by decide) (Or.inl rfl)

/-- C5, counterexample: with a successful search (`total_files: 3`, three
files, query `report`) but original `message_id = 0`, the single reply is
sent with `reply_to_message_id` omitted — `0` is falsy in JavaScript — so
it is not sent as a reply to the original message's id, refuting the
claim's universal "sent as a reply" clause. -/
theorem C5_counterexample :
    (handleUpdate oFound3 (mkUpdate 0 5 ("group") ("report"))
      ("TOKEN")).2 =
      [OutCall.search (searchUrl ("report")),
       OutCall.send (sendApiUrl ("TOKEN"))
         { chat_id := 5,
           text := "Found 3 result(s) for \"report\".",
           parse_mode := "HTML",
           reply_markup := some { inline_keyboard :=
             [[{ text := "🔗 Get Results", url := buttonUrl ("report") }]] },
           reply_to_message_id := none }] := by
  rfl

/-- C5, amended: on a successful search with a non-empty file list and a
resolving delivery, exactly one message is sent, reporting `total_files`
and the (trimmed) query, with exactly one inline button carrying the
results-page URL for the same query — and it is threaded to the original
`message_id` whenever that id is non-zero. -/
theorem C5_amended_found_reply (o : Oracle) (u : Update) (m : Message)
    (t tok : String) (st total : Int) (fs : List String)
    (hm : u.message = some m) (ht : m.text = some t) (htne : t ≠ "")
    (hg : m.chat.type = "group" ∨ m.chat.type = "supergroup")
    (hq1 : jsStartsWith (jsTrim t) ("/") = false) (hq2 : jsTrim t ≠ "")
    (hsearch : o.searchOutcome = FetchOutcome.response st
      (JsonOutcome.value (some { total_files := total, files := some fs })))
    (hst : 200 ≤ st ∧ st ≤ 299) (hfs : fs ≠ [])
    (hmid : m.message_id ≠ 0) (hsend : o.sendOk 0 = true) :
    handleUpdate o u tok =
      (JsResult.ok okResponse,
       [OutCall.search (searchUrl (jsTrim t)),
        OutCall.send (sendApiUrl tok)
          { chat_id := m.chat.id,
            text := "Found " ++ toString total ++ " result(s) for \"" ++
              jsTrim t ++ "\".",
            parse_mode := "HTML",
            reply_markup := some { inline_keyboard :=
              [[{ text := "🔗 Get Results", url := buttonUrl (jsTrim t) }]] },
            reply_to_message_id := some m.message_id }]) := by
  have hlen : 0 < fs.length := List.length_pos.mpr hfs
  rcases hg with hg | hg <;>
    simp [handleUpdate, searchAndReply, hm, ht, htne, hg, hq1, hq2,
      hsearch, hst, hlen, countSends, sendMessage, hsend, hmid,
      jsTruthyStr, jsOmitIfFalsyInt]

/-- C5, witness: the claim's own example — three results for `report`,
threaded to message 10. -/
theorem C5_amended_found_reply_witness :
    handleUpdate oFound3 (mkUpdate 10 5 ("group") ("report")) ("TOKEN") =
      (JsResult.ok okResponse,
       [OutCall.search ("https://tga-hd.api.hashhackers.com/files/search?q=report"),
        OutCall.send ("https://api.telegram.org/botTOKEN/sendMessage")
          { chat_id := 5,
            text := "Found 3 result(s) for \"report\".",
            parse_mode := "HTML",
            reply_markup := some { inline_keyboard :=
              [[{ text := "🔗 Get Results",
                  url := "https://gods-eye.pages.dev/?q=report&t=files" }]] },
            reply_to_message_id := some 10 }]) :=
  C5_amended_found_reply oFound3 (mkUpdate 10 5 ("group") ("report"))
    { message_id := 10, chat := { id := 5, type := "group" },
      text := some ("report") }
    ("report") ("TOKEN") 200 3 ["a", "b", "c"]
    rfl rfl (by decide) (Or.inl rfl) (by decide) (by decide)
    rfl (by decide) (by decide) (by decide) rfl

/-- C10: the branch between the results reply and the no-results reply
depends only on the length of `files` — an empty or missing `files` gives
the no-results text whatever `total_files` is — and for a non-empty
`files` the reported count is `total_files`, whatever the list's actual
length. -/
theorem C10_files_length_decides (o : Oracle) (tok : String)
    (chatId msgId : Int) (q : String) (st : Int)
    (hst : 200 ≤ st ∧ st ≤ 299) :
    (∀ total fls,
      o.searchOutcome = FetchOutcome.response st
        (JsonOutcome.value (some { total_files := total, files := fls })) →
      fls = none ∨ fls = some [] →
      (searchAndReply o tok chatId msgId q).2 =
        [OutCall.search (searchUrl q),
         OutCall.send (sendApiUrl tok)
           { chat_id := chatId,
             text := "No results found for \"" ++ q ++
               "\". Please try a different search term.",
             parse_mode := "HTML", reply_markup := none,
             reply_to_message_id := jsOmitIfFalsyInt (some msgId) }]) ∧
    (∀ total fs, fs ≠ [] →
      o.searchOutcome = FetchOutcome.response st
        (JsonOutcome.value (some { total_files := total, files := some fs })) →
      (searchAndReply o tok chatId msgId q).2 =
        [OutCall.search (searchUrl q),
         OutCall.send (sendApiUrl tok)
           { chat_id := chatId,
             text := "Found " ++ toString total ++ " result(s) for \"" ++
               q ++ "\".",
             parse_mode := "HTML",
             reply_markup := some { inline_keyboard :=
               [[{ text := "🔗 Get Results", url := buttonUrl q }]] },
             reply_to_message_id := jsOmitIfFalsyInt (some msgId) }]) := by
  constructor
  · intro total fls hE hfls
    rcases hfls with rfl | rfl <;>
      cases hOk : o.sendOk 0 <;>
        simp [searchAndReply, hE, hst, countSends, sendMessage, hOk]
  · intro total fs hfs hE
    have hlen : 0 < fs.length := List.length_pos.mpr hfs
    cases hOk : o.sendOk 0 <;>
      simp [searchAndReply, hE, hst, hlen, countSends, sendMessage, hOk]

/-- Oracle: search succeeds claiming nine results but with an empty file
list, deliveries resolve. -/
def oEmptyFilesPositiveTotal : Oracle :=
  { searchOutcome := FetchOutcome.response 200
      (JsonOutcome.value (some { total_files := 9, files := some [] }))
    webhookOutcome := FetchOutcome.reject
    sendOk := fun _ => true }

/-- C10, witness: `total_files = 9` with an empty `files` still produces
the no-results reply. -/
theorem C10_files_length_decides_witness :
    (searchAndReply oEmptyFilesPositiveTotal ("TOKEN") 5 7
      ("report")).2 =
      [OutCall.search (searchUrl ("report")),
       OutCall.send (sendApiUrl ("TOKEN"))
         { chat_id := 5,
           text := "No results found for \"report\". Please try a different search term.",
           parse_mode := "HTML", reply_markup := none,
           reply_to_message_id := some 7 }] :=
  (C10_files_length_decides oEmptyFilesPositiveTotal ("TOKEN") 5 7
    ("report") 200 (by decide)).1 9 (some []) rfl (Or.inr rfl)

/-- When every `sendMessage` delivery resolves, `handleUpdate` never
throws: whatever the filters and the search outcome, it returns the OK
acknowledgment. -/
theorem handleUpdate_ok_of_sends_ok (o : Oracle) (u : Update)
    (tok : String) (h : ∀ n, o.sendOk n = true) :
    (handleUpdate o u tok).1 = JsResult.ok okResponse := by
  rcases hu : u.message with _ | m
  · simp [handleUpdate, hu]
  · by_cases ht : jsTruthyStr m.text = false
    · simp [handleUpdate, hu, ht]
    · by_cases hg : m.chat.type ≠ "group" ∧ m.chat.type ≠ "supergroup"
      · by_cases hp : m.chat.type = "private"
        · simp [handleUpdate, hu, ht, hg, hp, sendMessage, h 0]
        · simp [handleUpdate, hu, ht, hg, hp]
      · by_cases hq : jsStartsWith (jsTrim (m.text.getD "")) ("/") = true ∨
          jsTrim (m.text.getD "") = ""
        · simp [handleUpdate, hu, ht, hg, hq]
        · cases hs : (searchAndReply o tok m.chat.id m.message_id
            (jsTrim (m.text.getD ""))).1 with
          | ok v =>
            simp [handleUpdate, hu, ht, hg, hq, hs]
          | thrown =>
            simp [handleUpdate, hu, ht, hg, hq, hs, sendMessage, h _]

/-- C1, counterexample: a well-formed POST update in a group chat, with
the search fetch rejecting and the apology delivery rejecting too: the
exception escapes `handleUpdate` into the body-parsing handler, and the
worker answers HTTP 400 "Invalid request body", not 200. -/
theorem C1_counterexample :
    (Worker.fetch oAllFail
      { method := "POST", path := "/",
        jsonBody := some (mkUpdate 10 5 ("group") ("report")) }
      { BOT_TOKEN := some ("TOKEN"), WORKER_URL := none }).1 =
      JsResult.ok ⟨400, "Invalid request body"⟩ := by
  rfl

/-- C1, amended: a parsed POST update is acknowledged HTTP 200 whatever
the internal outcome — including search failure, which the apology path
absorbs — provided the send deliveries themselves resolve; when the
apology (or private-notice) delivery rejects, the escaping exception is
caught by the body-parse handler and the worker answers HTTP 400
instead. -/
theorem C1_amended_ok_ack (o : Oracle) (req : Request) (env : Env)
    (u : Update)
    (htok : jsTruthyStr env.BOT_TOKEN = true)
    (hpath : req.path ≠ "/setwebhook")
    (hmethod : req.method = "POST")
    (hbody : req.jsonBody = some u)
    (hsend : ∀ n, o.sendOk n = true) :
    (Worker.fetch o req env).1 = JsResult.ok okResponse := by
  have h1 := handleUpdate_ok_of_sends_ok o u (env.BOT_TOKEN.getD "") hsend
  simp [Worker.fetch, htok, hpath, hmethod, hbody, h1]

/-- C1, witness: a failed search with resolving deliveries is still
acknowledged 200. -/
theorem C1_amended_ok_ack_witness :
    (Worker.fetch oSearchReject
      { method := "POST", path := "/",
        jsonBody := some (mkUpdate 10 5 ("group") ("report")) }
      { BOT_TOKEN := some ("TOKEN"), WORKER_URL := none }).1 =
      JsResult.ok okResponse :=
  C1_amended_ok_ack oSearchReject
    { method := "POST", path := "/",
      jsonBody := some (mkUpdate 10 5 ("group") ("report")) }
    { BOT_TOKEN := some ("TOKEN"), WORKER_URL := none }
    (mkUpdate 10 5 ("group") ("report"))
    (by decide) (by decide) rfl rfl (fun _ => rfl)

end Worker
